import Mathlib

/-!
Verification development for the callback-decorator library
(src/callback_decorator/__init__.py).

The library has two pieces:
  * `CallbackWrapper` — the Ownership Token: a mutable cell `_callobj`
    holding either a callable or `None`, with `__call__` (invoke),
    `release`, and a constructor that drains an already-wrapped source
    via `release_callback`.
  * `ensure_callback` — the decorator that validates the callback
    parameter name at decoration time and installs a try/finally
    wrapper around the target body (plain, generator, and async shapes).

Shallow embedding choices:
  * Callables are identified by a `Cb` id; their runtime behaviour is an
    explicit function `behave : ArgPack -> Except PyErr Val` (a Python
    call either returns a value or raises).
  * The token's mutable `_callobj` field is an `Option Cb`; every
    operation returns the new field value explicitly.
  * Python exceptions are the inductive `PyErr` (class plus message).
  * The plain wrapper's try/finally is modelled exactly as Python
    executes it: the finally block runs the finalization invoke, and an
    exception raised inside the finally block replaces the body's
    result or exception.
-/

deriving instance DecidableEq for Except

/-- Identity of a raw callable (the original callback object). -/
abbrev Cb := Nat

/-- A Python value returned by a call (abstracted). -/
abbrev Val := Nat

/-- One argument package: positional args plus keyword args, as passed
to a callable (`*args, **kwargs`). -/
structure ArgPack where
  args : List Val
  kwargs : List (String × Val)
deriving DecidableEq, Repr

/-- A raised Python exception: the classes the library uses, plus a tag
for arbitrary user exceptions raised by bodies or callbacks. -/
inductive PyErr where
  | runtimeError (msg : String)
  | valueError (msg : String)
  | userError (tag : Nat)
deriving DecidableEq, Repr

/-- Message of the RuntimeError raised by `CallbackWrapper.release` on an
already-released token (source line 142). -/
def releaseMsg : String := "Cannot release a call object which is already released!"

/-- The error raised by `CallbackWrapper.release` on an empty token. -/
def releaseErr : PyErr := PyErr.runtimeError releaseMsg

/-!
## Ownership Token: `CallbackWrapper`

`_callobj : Option Cb` is the held value; `none` means consumed.
-/

/-- `CallbackWrapper.__call__` (source lines 122-133): if `_callobj` is
held, it is cleared FIRST (line 131) and only then called (line 132), so
the new field value is `none` regardless of whether the call raises.
Returns the new field value and the call result (`.ok none` models
Python returning `None` from the no-op branch, line 133). -/
def callWrapper (behave : Cb → ArgPack → Except PyErr Val) (st : Option Cb) (a : ArgPack) :
    Option Cb × Except PyErr (Option Val) :=
  match st with
  | some c => (none, (behave c a).map some)
  | none => (none, Except.ok none)

/-- `CallbackWrapper.release` (source lines 135-146): on an empty token
raise `releaseErr`; otherwise clear the field and return the callable. -/
def releaseOp (st : Option Cb) : Option Cb × Except PyErr Cb :=
  match st with
  | some c => (none, Except.ok c)
  | none => (none, Except.error releaseErr)

/-- The value handed to `CallbackWrapper.__init__` / `release_callback`:
either a raw callable or a (state of a) `CallbackWrapper`. -/
inductive CallSource where
  | raw (c : Cb)
  | wrapped (st : Option Cb)
deriving DecidableEq, Repr

/-- `release_callback` (source lines 148-159): if the argument is a
`CallbackWrapper`, call its `release` (mutating it); otherwise return
the argument unchanged. Returns the (possibly mutated) source and the
result. -/
def release_callback : CallSource → CallSource × Except PyErr Cb
  | CallSource.wrapped st =>
      let p := releaseOp st
      (CallSource.wrapped p.1, p.2)
  | CallSource.raw c => (CallSource.raw c, Except.ok c)

/-- `CallbackWrapper.__init__` (source lines 114-120): the new token's
`_callobj` is `release_callback(callobj)`; the construction raises
whatever `release_callback` raises. Returns the drained source and
either the new token's field value or the propagated error. -/
def initWrapper (src : CallSource) : CallSource × Except PyErr (Option Cb)
  := let p := release_callback src
     (p.1, p.2.map some)

/-!
## Token operation sequences

For the at-most-once invariant we run an arbitrary sequence of Invoke /
Release operations against a single token and record, for each
operation, which branch of the source method ran.
-/

/-- An operation applied to one Ownership Token. -/
inductive TokenOp where
  | invoke (a : ArgPack)
  | release
deriving DecidableEq, Repr

/-- Observable outcome of one token operation: `called` is the branch of
`__call__` that actually calls the held callable (lines 129-132),
`noop` its empty branch (line 133), `releasedOk` the successful branch
of `release` (lines 144-146), `releaseFail` its raising branch
(lines 141-142). -/
inductive OpResult where
  | called (c : Cb) (a : ArgPack)
  | noop
  | releasedOk (c : Cb)
  | releaseFail (e : PyErr)
deriving DecidableEq, Repr

/-- One token operation: the state update of `__call__` / `release`
together with the branch taken. The state is cleared before the
underlying call happens, so the update is independent of the callable
outcome. -/
def tokenStep (st : Option Cb) (op : TokenOp) : Option Cb × OpResult :=
  match st, op with
  | some c, TokenOp.invoke a => (none, OpResult.called c a)
  | none, TokenOp.invoke _ => (none, OpResult.noop)
  | some c, TokenOp.release => (none, OpResult.releasedOk c)
  | none, TokenOp.release => (none, OpResult.releaseFail releaseErr)

/-- Run a sequence of operations against a token, recording each
branch taken. -/
def runOps (st : Option Cb) : List TokenOp → List OpResult
  | [] => []
  | op :: ops =>
      let p := tokenStep st op
      p.2 :: runOps p.1 ops

/-- An operation result is consuming when it actually calls the held
callable or successfully returns it. -/
def consuming : OpResult → Bool
  | OpResult.called _ _ => true
  | OpResult.releasedOk _ => true
  | _ => false

/-- Result of any operation on an empty token: Invoke no-ops, Release
raises. -/
def emptyResult : TokenOp → OpResult
  | TokenOp.invoke _ => OpResult.noop
  | TokenOp.release => OpResult.releaseFail releaseErr

theorem tokenStep_none (op : TokenOp) : tokenStep none op = (none, emptyResult op) := by
  cases op <;> rfl

theorem runOps_none (ops : List TokenOp) : runOps none ops = ops.map emptyResult := by
  induction ops with
  | nil => rfl
  | cons op ops ih => simp [runOps, tokenStep_none, ih]

theorem consuming_emptyResult (op : TokenOp) : consuming (emptyResult op) = false := by
  cases op <;> rfl

theorem countP_emptyResults (ops : List TokenOp) :
    (ops.map emptyResult).countP consuming = 0 := by
  rw [List.countP_eq_zero]
  intro r hr
  rcases List.mem_map.mp hr with ⟨op, _, rfl⟩
  simp [consuming_emptyResult]

theorem runOps_some (c : Cb) (op : TokenOp) (ops : List TokenOp) :
    runOps (some c) (op :: ops) = (tokenStep (some c) op).2 :: ops.map emptyResult := by
  cases op <;> simp [runOps, tokenStep, runOps_none]

theorem countP_runOps_some (c : Cb) (ops : List TokenOp) :
    (runOps (some c) ops).countP consuming ≤ 1 := by
  cases ops with
  | nil => simp [runOps]
  | cons op ops =>
      rw [runOps_some, List.countP_cons, countP_emptyResults]
      split <;> simp

theorem runOps_append (st : Option Cb) (xs ys : List TokenOp) :
    runOps st (xs ++ ys) = runOps st xs ++ runOps (xs.foldl (fun s op => (tokenStep s op).1) st) ys := by
  induction xs generalizing st with
  | nil => rfl
  | cons x xs ih => simp [runOps, ih]

theorem foldl_tokenStep_none (xs : List TokenOp) :
    xs.foldl (fun s op => (tokenStep s op).1) none = none := by
  induction xs with
  | nil => rfl
  | cons x xs ih => simpa [tokenStep_none] using ih

/-- If some result of the prefix is consuming, the token state after the
prefix is `none`. -/
theorem state_none_of_consuming (st : Option Cb) (xs : List TokenOp)
    (h : ∃ r ∈ runOps st xs, consuming r) :
    xs.foldl (fun s op => (tokenStep s op).1) st = none := by
  induction xs generalizing st with
  | nil => simp [runOps] at h
  | cons x xs ih =>
      cases st with
      | none => exact foldl_tokenStep_none (x :: xs)
      | some c =>
          cases x with
          | invoke a => exact foldl_tokenStep_none xs
          | release => exact foldl_tokenStep_none xs

/-!
## Plain wrapper (`ensure_callback`, else-branch, source lines 229-236)

Per call: bind arguments, construct a fresh token holding the callback
argument, run the body with the token, and in a `finally` block invoke
the token with the decoration-time `callback_args` / `callback_kwargs`.

The body is abstracted as the sequence of operations it performs on the
token (each either an invoke with some arguments or a release via
`release_callback`) followed by its own outcome (return a value or
raise). There is a single original callback per call, so its behaviour
is `behave : ArgPack -> Except PyErr Val` and the token state is just
the flag "still held".
-/

/-- One action the body performs on its callback token. -/
inductive BodyAct where
  | invoke (a : ArgPack)
  | release
deriving DecidableEq, Repr

/-- A plain body: its token actions in order, then its own outcome
(return a value or raise) reached when no action aborted it. -/
structure PlainBody where
  acts : List BodyAct
  outcome : Except PyErr Val
deriving DecidableEq, Repr

/-- Result of running the body's token actions: whether the token is
still held, the argument packages delivered to the original callback in
order, and the exception (if any) that aborted the body. An invoke on a
held token clears it and calls the callback (whose raise aborts the
body); an invoke on an empty token is a no-op; a release on an empty
token raises `releaseErr`. -/
def runBodyActs (behave : ArgPack → Except PyErr Val) :
    Bool → List ArgPack → List BodyAct → Bool × List ArgPack × Option PyErr
  | held, calls, [] => (held, calls, none)
  | held, calls, BodyAct.invoke a :: rest =>
      if held then
        match behave a with
        | Except.ok _ => runBodyActs behave false (calls ++ [a]) rest
        | Except.error e => (false, calls ++ [a], some e)
      else runBodyActs behave false calls rest
  | held, calls, BodyAct.release :: rest =>
      if held then runBodyActs behave false calls rest
      else (false, calls, some releaseErr)

/-- The outcome of the try-block (before the finally): the aborting
exception if a token action raised, otherwise the body's own outcome. -/
def bodyResult (behave : ArgPack → Except PyErr Val) (body : PlainBody) : Except PyErr Val :=
  match (runBodyActs behave true [] body.acts).2.2 with
  | some e => Except.error e
  | none => body.outcome

/-- One call of the plain wrapper (source lines 231-236): run the body
against a fresh token, then in `finally` invoke the token with the
decoration-time arguments `dA`. Returns what the caller observes and
the list of argument packages delivered to the original callback. If
the token is still held at finalization, the callback is called with
`dA`; per Python semantics an exception raised inside the `finally`
block replaces the try-block's result. -/
def runPlain (behave : ArgPack → Except PyErr Val) (dA : ArgPack) (body : PlainBody) :
    Except PyErr Val × List ArgPack :=
  let r := runBodyActs behave true [] body.acts
  let bres := bodyResult behave body
  if r.1 then
    match behave dA with
    | Except.ok _ => (bres, r.2.1 ++ [dA])
    | Except.error e => (Except.error e, r.2.1 ++ [dA])
  else (bres, r.2.1)

/-!
## Decoration-time validation (source lines 191-195)

`ensure_callback(callback_name, ...)` applied to a target raises
`ValueError` before building any wrapper when the target's signature
has no parameter named `callback_name`.
-/

/-- The `ValueError` message of source line 195 (quotes around the two
names elided). -/
def missingParamMsg (fname cn : String) : String :=
  "Wrapped function " ++ fname ++ " has no parameter " ++ cn ++ "!"

/-- `ensure_callback(callback_name).decorator(funcobj)` at decoration
time: `params` is the target's declared parameter list, `fname` its
name. Fails before any wrapper exists when `callback_name` is not a
declared parameter; otherwise decoration succeeds. -/
def decorateCheck (cn : String) (params : List String) (fname : String) : Except PyErr Unit :=
  if cn ∈ params then Except.ok ()
  else Except.error (PyErr.valueError (missingParamMsg fname cn))

/-!
## Generator wrapper (source lines 219-226)

The wrapper is itself a generator function: `yield from body` inside
`try`, the finalization invoke inside `finally`. Consequences of
Python's generator semantics, encoded in the trace below:
  * calling the wrapper creates a generator object without running any
    code; the body starts only at the first resumption;
  * while the generator is suspended at a yield, the finally block has
    not run;
  * the finally block runs exactly when the generator frame unwinds:
    the body is exhausted, raises, or the consumer closes a started
    generator (close on a never-started generator runs nothing).

The body is abstracted as its yielded values plus the terminal outcome
of its frame, and `consumed : Bool` says whether the body consumed the
token before the unwind (by invoking or releasing it); the finalization
invoke actually calls the callback only if the token is still held.
-/

/-- Observable events of one wrapped-generator interaction, in order:
values delivered to the consumer, finalization calls delivered to the
original callback, and an exception reaching the consumer. -/
inductive GenEv where
  | yielded (v : Val)
  | finCall (a : ArgPack)
  | raised (e : PyErr)
deriving DecidableEq, Repr

/-- What the consumer does with the generator object. `stopAt k`: take
at most `k` values and keep the generator suspended (no unwind yet);
`stopAt 0` is a merely-constructed generator. `closeAt j`: take at most
`j` values, then call `close()`. `drain`: iterate to exhaustion. -/
inductive Consumer where
  | drain
  | stopAt (k : Nat)
  | closeAt (j : Nat)
deriving DecidableEq, Repr

/-- Events produced when the generator frame unwinds at the end of
`drain`: the finally block fires the finalization invoke (a real call
only when the token is still held), then the body's exception, if any,
propagates to the consumer. -/
def unwindTail (dA : ArgPack) (consumed : Bool) (final : Except PyErr Unit) : List GenEv :=
  (if consumed then [] else [GenEv.finCall dA]) ++
    (match final with
     | Except.error e => [GenEv.raised e]
     | Except.ok _ => [])

/-- Trace of one wrapped-generator call: `ys` the body's yielded
values, `final` the terminal outcome of the body's frame, `consumed`
whether the body consumed the token, `dA` the decoration-time
arguments. `closeAt (j+1)` closes a started generator: the frame
unwinds at its current yield, so the finally runs but the body's
terminal code does not; `closeAt 0` closes a never-started generator,
which runs no code at all. -/
def genRun (dA : ArgPack) (consumed : Bool) (ys : List Val) (final : Except PyErr Unit) :
    Consumer → List GenEv
  | Consumer.drain => ys.map GenEv.yielded ++ unwindTail dA consumed final
  | Consumer.stopAt k => (ys.take k).map GenEv.yielded
  | Consumer.closeAt 0 => []
  | Consumer.closeAt (j + 1) =>
      ((ys.take (j + 1)).map GenEv.yielded) ++
        (if consumed then [] else [GenEv.finCall dA])

/-- Is an event a finalization call to the original callback? -/
def isFinCall : GenEv → Bool
  | GenEv.finCall _ => true
  | _ => false

theorem countP_yielded (p : List Val) : (p.map GenEv.yielded).countP isFinCall = 0 := by
  rw [List.countP_eq_zero]
  intro e he
  rcases List.mem_map.mp he with ⟨v, _, rfl⟩
  simp [isFinCall]

/-!
## Claim theorems
-/

/-- C1: for every call of a wrapped plain function whose body neither
invokes nor releases the callback token, the original callback is
called exactly once with the decoration-time arguments, both when the
body returns normally (with or without a value) and when it raises. -/
theorem C1_guaranteed_invocation (behave : ArgPack → Except PyErr Val) (dA : ArgPack)
    (out : Except PyErr Val) :
    (runPlain behave dA ⟨[], out⟩).2 = [dA] := by
  cases h : behave dA <;> simp [runPlain, runBodyActs, h]

/-- C2: on a single Ownership Token, at most one consuming operation
(an Invoke that actually calls the held callable, or a Release that
returns it) succeeds over any operation sequence; after a prefix
containing the consuming operation, every further Invoke is a no-op and
every further Release raises `releaseErr`. -/
theorem C2_at_most_once (c : Cb) (ops pre post : List TokenOp)
    (hsplit : ops = pre ++ post) :
    (runOps (some c) ops).countP consuming ≤ 1 ∧
    ((∃ r ∈ runOps (some c) pre, consuming r) →
      runOps (some c) ops = runOps (some c) pre ++ post.map emptyResult) := by
  constructor
  · exact countP_runOps_some c ops
  · intro h
    subst hsplit
    rw [runOps_append, state_none_of_consuming (some c) pre h, runOps_none]

theorem C2_at_most_once_witness :
    (runOps (some 0) [TokenOp.invoke ⟨[1], []⟩, TokenOp.invoke ⟨[2], []⟩, TokenOp.release]).countP consuming ≤ 1 ∧
    runOps (some 0) [TokenOp.invoke ⟨[1], []⟩, TokenOp.invoke ⟨[2], []⟩, TokenOp.release] =
      runOps (some 0) [TokenOp.invoke ⟨[1], []⟩] ++
        [TokenOp.invoke ⟨[2], []⟩, TokenOp.release].map emptyResult := by
  have h := C2_at_most_once 0
    [TokenOp.invoke ⟨[1], []⟩, TokenOp.invoke ⟨[2], []⟩, TokenOp.release]
    [TokenOp.invoke ⟨[1], []⟩] [TokenOp.invoke ⟨[2], []⟩, TokenOp.release] rfl
  exact ⟨h.1, h.2 (by decide)⟩

/-- C3: if the body invokes the callback token with arguments `A` (and
the callback returns), the original callback is called exactly once and
receives exactly `A`; the finalization call with the decoration-time
arguments does not additionally fire, and the body's outcome — in
particular its return value — is propagated unchanged. -/
theorem C3_ownership_precedence (behave : ArgPack → Except PyErr Val) (dA A : ArgPack)
    (out : Except PyErr Val) (r : Val) (h : behave A = Except.ok r) :
    runPlain behave dA ⟨[BodyAct.invoke A], out⟩ = (out, [A]) := by
  simp [runPlain, bodyResult, runBodyActs, h]

theorem C3_ownership_precedence_witness :
    runPlain (fun _ => Except.ok 7) ⟨[0], []⟩ ⟨[BodyAct.invoke ⟨[1], []⟩], Except.ok 2⟩ =
      (Except.ok 2, [⟨[1], []⟩]) :=
  C3_ownership_precedence (fun _ => Except.ok 7) ⟨[0], []⟩ ⟨[1], []⟩ (Except.ok 2) 7 rfl

/-- C4: if the body releases the callback token (and then returns or
raises), the original callback is never called by the wrapper, and the
caller observes the body's return value or raised error unchanged. -/
theorem C4_release_suppresses (behave : ArgPack → Except PyErr Val) (dA : ArgPack)
    (out : Except PyErr Val) :
    runPlain behave dA ⟨[BodyAct.release], out⟩ = (out, []) := by
  simp [runPlain, bodyResult, runBodyActs]

/-- C6 counterexample: a body that raises `userError 0` while the
original callback raises `userError 1` when the finalization step calls
it: the caller observes `userError 1`, not the body's error, because an
exception in the `finally` block replaces the in-flight exception. -/
theorem C6_counterexample :
    ¬ (runPlain (fun _ => Except.error (PyErr.userError 1)) ⟨[], []⟩
        ⟨[], Except.error (PyErr.userError 0)⟩).1 = Except.error (PyErr.userError 0) := by
  decide

/-- C6 (amended): for every call whose body raises an error, that same
error propagates unchanged to the wrapper's caller after the
finalization step has run, provided the finalization call itself does
not raise (here: the callback returns normally on the decoration-time
arguments). -/
theorem C6_error_propagation (behave : ArgPack → Except PyErr Val) (dA : ArgPack)
    (body : PlainBody) (e : PyErr) (v : Val)
    (hfin : behave dA = Except.ok v)
    (hbody : bodyResult behave body = Except.error e) :
    (runPlain behave dA body).1 = Except.error e := by
  simp only [runPlain, hfin]
  split <;> simp [hbody]

theorem C6_error_propagation_witness :
    (runPlain (fun _ => Except.ok 0) ⟨[], []⟩ ⟨[], Except.error (PyErr.userError 7)⟩).1 =
      Except.error (PyErr.userError 7) :=
  C6_error_propagation (fun _ => Except.ok 0) ⟨[], []⟩ ⟨[], Except.error (PyErr.userError 7)⟩
    (PyErr.userError 7) 0 rfl rfl

/-- C7: decoration fails immediately, before any wrapper exists, with a
`ValueError` naming the missing parameter when the target's declared
parameter list lacks `callback_name`; when the parameter is declared,
decoration succeeds. -/
theorem C7_decoration_check (cn fname : String) (params : List String) :
    (cn ∉ params →
      decorateCheck cn params fname =
        Except.error (PyErr.valueError (missingParamMsg fname cn))) ∧
    (cn ∈ params → decorateCheck cn params fname = Except.ok ()) := by
  constructor <;> intro h <;> simp [decorateCheck, h]

theorem C7_decoration_check_witness :
    decorateCheck "cb" ["x"] "f" =
      Except.error (PyErr.valueError (missingParamMsg "f" "cb")) ∧
    decorateCheck "cb" ["cb"] "f" = Except.ok () :=
  ⟨(C7_decoration_check "cb" "f" ["x"]).1 (by decide),
   (C7_decoration_check "cb" "f" ["cb"]).2 (by decide)⟩

/-- C8: constructing a token from a token that still holds a callable
drains the source exactly as the source's release does, leaving the
source permanently empty (its release now raises) and the new token
holding the callable; constructing from an already-empty token raises
the ownership error. -/
theorem C8_transfer_on_rewrap (c : Cb) :
    initWrapper (CallSource.wrapped (some c)) = (CallSource.wrapped none, Except.ok (some c)) ∧
    initWrapper (CallSource.wrapped none) = (CallSource.wrapped none, Except.error releaseErr) ∧
    releaseOp none = (none, Except.error releaseErr) ∧
    (∀ st : Option Cb,
      initWrapper (CallSource.wrapped st) =
        (CallSource.wrapped (releaseOp st).1, (releaseOp st).2.map some)) :=
  ⟨rfl, rfl, rfl, fun _ => rfl⟩

/-- C9: Invoke clears the token's held value before calling the
callable, so an Invoke whose callable raises still consumes the token:
the state is `none`, a subsequent Invoke is a no-op, and a subsequent
Release raises. -/
theorem C9_clear_before_call (behave : Cb → ArgPack → Except PyErr Val) (c : Cb)
    (a b : ArgPack) (e : PyErr) (h : behave c a = Except.error e) :
    callWrapper behave (some c) a = (none, Except.error e) ∧
    callWrapper behave none b = (none, Except.ok none) ∧
    releaseOp none = (none, Except.error releaseErr) := by
  refine ⟨?_, rfl, rfl⟩
  simp [callWrapper, h, Except.map]

theorem C9_clear_before_call_witness :
    callWrapper (fun _ _ => Except.error (PyErr.userError 5)) (some 0) ⟨[], []⟩ =
      (none, Except.error (PyErr.userError 5)) ∧
    callWrapper (fun _ _ => Except.error (PyErr.userError 5)) none ⟨[1], []⟩ =
      (none, Except.ok none) ∧
    releaseOp none = (none, Except.error releaseErr) :=
  C9_clear_before_call (fun _ _ => Except.error (PyErr.userError 5)) 0 ⟨[], []⟩ ⟨[1], []⟩
    (PyErr.userError 5) rfl

/-- C10: the error raised when constructing a token from an
already-consumed token and the error raised by releasing an empty token
are the same `RuntimeError` with the same message, produced by the
shared release path. -/
theorem C10_same_error :
    (initWrapper (CallSource.wrapped none)).2 = Except.error (PyErr.runtimeError releaseMsg) ∧
    (releaseOp none).2 = Except.error (PyErr.runtimeError releaseMsg) :=
  ⟨rfl, rfl⟩

/-- C5: for a wrapped generator-producing function, the wrapper
delivers no finalization call while the generator is merely constructed
or only partially iterated (its yielded values pass through unchanged);
once the generator frame fully unwinds — exhausted, closed after being
started, or raising during iteration — the finalization call fires
exactly once, after all yielded values (closing a never-started
generator runs no frame, hence nothing). -/
theorem C5_generator_timing (dA : ArgPack) (ys : List Val) (final : Except PyErr Unit)
    (k : Nat) (consumed : Bool) :
    (genRun dA consumed ys final (Consumer.stopAt k)).countP isFinCall = 0 ∧
    genRun dA consumed ys final (Consumer.stopAt k) = (ys.take k).map GenEv.yielded ∧
    genRun dA false ys final Consumer.drain =
      ys.map GenEv.yielded ++ GenEv.finCall dA ::
        (match final with
         | Except.error e => [GenEv.raised e]
         | Except.ok _ => []) ∧
    (genRun dA false ys final Consumer.drain).countP isFinCall = 1 ∧
    genRun dA false ys final (Consumer.closeAt (k + 1)) =
      (ys.take (k + 1)).map GenEv.yielded ++ [GenEv.finCall dA] ∧
    (genRun dA false ys final (Consumer.closeAt (k + 1))).countP isFinCall = 1 ∧
    genRun dA consumed ys final (Consumer.closeAt 0) = [] := by
  refine ⟨countP_yielded _, rfl, ?_, ?_, rfl, ?_, rfl⟩
  · cases final <;> rfl
  · cases final <;>
      simp [genRun, unwindTail, List.countP_append, countP_yielded, List.countP_cons, isFinCall]
  · show ((ys.take (k + 1)).map GenEv.yielded ++ [GenEv.finCall dA]).countP isFinCall = 1
    rw [List.countP_append, countP_yielded]
    simp [List.countP_cons, isFinCall]
